import Mathlib

/-!
Formal model of the multi-agent web-task curriculum engine.

Each Python module of the repository is embedded shallowly: pure functions
become Lean functions, stateful loops become explicit recursion over the
loop state, Python exceptions become `Except` results, and the external
collaborators (text-generation service, web environment, verifier) are
passed in as explicit function parameters describing one run's behaviour.
Machine integers in the source are non-negative counters, embedded as `Nat`;
Python floats are embedded as real numbers.
-/

namespace Curric

/-! ## Data model (src/models.py) -/

/-- Single agent action (`models.Action`): action kind, accessible element
name, optional value. -/
structure Action where
  action : String
  element : String
  value : String := ""
deriving DecidableEq

/-- Single interactive element from the accessibility tree
(`models.InteractiveElement`). -/
structure InteractiveElement where
  role : String
  name : String
  value : String := ""
  checked : Option Bool := none
  disabled : Bool := false
deriving DecidableEq

/-- Current state of a web page (`models.PageState`). -/
structure PageState where
  url : String
  title : String
  interactive_elements : List InteractiveElement
  visible_text : String
  errors : List String
deriving DecidableEq

/-- How to verify task completion (`models.SuccessCriteria`). -/
structure SuccessCriteria where
  description : String
  hints : List String := []
deriving DecidableEq

/-- A single task in the curriculum (`models.Task`).

The Python class is a `@dataclass` whose `__init__` accepts exactly the nine
declared fields.  The attribute `expected_actions` is *not* a dataclass
field: it is attached dynamically (`task.expected_actions = ...`) by the
template and chaining generators only.  We model that dynamic attribute as
`expected_actions : Option (List Action)`, where `none` means the attribute
was never set (so that reading it raises `AttributeError` in Python). -/
structure Task where
  id : String
  site : String
  description : String
  success_criteria : SuccessCriteria
  estimated_replans : Nat
  replan_reasoning : String
  min_actions : Option Nat := none
  oracle_tokens : Option Nat := none
  validated : Bool := false
  expected_actions : Option (List Action) := none
deriving DecidableEq

/-- Names accepted by the generated `Task.__init__` (the nine dataclass
fields of `models.Task`); passing any other keyword raises `TypeError`. -/
def Task.initParams : List String :=
  ["id", "site", "description", "success_criteria",
   "estimated_replans", "replan_reasoning",
   "min_actions", "oracle_tokens", "validated"]

/-- `task.expected_inference_calls` property (`models.Task`). -/
def Task.expected_inference_calls (t : Task) : Nat :=
  max 1 t.estimated_replans

/-! ## Reward calculator (src/reward.py) -/

/-- Configuration for reward calculation (`reward.RewardConfig`), with the
source defaults. -/
structure RewardConfig where
  action_weight : ℝ := 0.6
  inference_weight : ℝ := 0.4
  action_deviation_penalty : ℝ := 0.15
  inference_deviation_penalty : ℝ := 0.05

/-- Action efficiency term of `RewardCalculator.compute`:
`min(1.0, min_actions / actual_actions) if actual_actions > 0 else 0.0`. -/
noncomputable def action_efficiency (min_actions actual_actions : Nat) : ℝ :=
  if 0 < actual_actions then min 1 ((min_actions : ℝ) / (actual_actions : ℝ)) else 0

/-- Inference efficiency term of `RewardCalculator.compute`:
`min(1.0, expected / actual) if actual_inference_calls > 0 else 0.0`. -/
noncomputable def inference_efficiency (expected_inference_calls actual_inference_calls : Nat) : ℝ :=
  if 0 < actual_inference_calls then
    min 1 ((expected_inference_calls : ℝ) / (actual_inference_calls : ℝ))
  else 0

/-- `reward.RewardCalculator.compute`: reward for an episode, a pure
function of the success flag and the action/inference counters. -/
noncomputable def RewardCalculator.compute (c : RewardConfig) (success : Bool)
    (actual_actions actual_inference_calls min_actions expected_inference_calls : Nat) : ℝ :=
  if success = false then 0 else
    let ae := action_efficiency min_actions actual_actions
    let extra_actions : ℝ := max 0 ((actual_actions : ℝ) - (min_actions : ℝ))
    let action_penalty := Real.exp (-c.action_deviation_penalty * extra_actions)
    let ie := inference_efficiency expected_inference_calls actual_inference_calls
    let extra_calls : ℝ := max 0 ((actual_inference_calls : ℝ) - (expected_inference_calls : ℝ))
    let inference_penalty := Real.exp (-c.inference_deviation_penalty * extra_calls)
    let base := c.action_weight * ae + c.inference_weight * ie
    base * (action_penalty * inference_penalty)

/-! ## String helpers

Python's `str.lower()`, `str.strip()`, `startswith` and substring
containment, written over the character list so that closed runs evaluate
inside the kernel.  All strings in this development are ASCII, where these
agree with the Python operations. -/

/-- Python `s.lower()`. -/
def lowerStr (s : String) : String :=
  ⟨s.data.map Char.toLower⟩

/-- Python `s.strip()`. -/
def trimStr (s : String) : String :=
  ⟨((s.data.dropWhile Char.isWhitespace).reverse.dropWhile Char.isWhitespace).reverse⟩

/-- Needle is an initial segment of the haystack. -/
def leadsWith : List Char → List Char → Bool
  | [], _ => true
  | _ :: _, [] => false
  | a :: as, b :: bs => a == b && leadsWith as bs

/-- Python's `needle in haystack` on strings: `needle` occurs as a
contiguous substring of `haystack`. -/
def hasSubstring (needle : List Char) : List Char → Bool
  | [] => needle.isEmpty
  | c :: rest => leadsWith needle (c :: rest) || hasSubstring needle rest

/-! ## Task generator (src/generator.py) -/

/-- One predefined task template from `generator.SITE_ACTION_TEMPLATES`:
a fixed action sequence, a task description and success-hint keywords. -/
structure Template where
  actions : List Action
  task : String
  success_hints : List String
deriving DecidableEq

/-- The full per-site, per-difficulty template catalog
`generator.SITE_ACTION_TEMPLATES`, transcribed verbatim.  Both the sites
and the difficulty keys are listed in the source's (insertion) order; the
difficulty keys of every site appear in ascending order, so
`sorted(site_templates.keys())` is the key list as written. -/
def SITE_ACTION_TEMPLATES : List (String × List (Nat × List Template)) :=
  [("signup",
    [(1, [⟨[⟨"click", "Sign Up", ""⟩],
          "Click the Sign Up button to trigger validation (will show email required error)",
          ["Email must contain"]⟩]),
     (2, [⟨[⟨"type", "Email", "test@example.com"⟩, ⟨"click", "Sign Up", ""⟩],
          "Enter email 'test@example.com' and click Sign Up (will show password required)",
          ["Password must be at least"]⟩,
          ⟨[⟨"type", "Password", "pass"⟩, ⟨"click", "Sign Up", ""⟩],
          "Enter a short password 'pass' and click Sign Up (will show password length error)",
          ["Password must be at least"]⟩]),
     (3, [⟨[⟨"type", "Email", "test@example.com"⟩, ⟨"type", "Password", "password123"⟩,
            ⟨"click", "Sign Up", ""⟩],
          "Fill in email 'test@example.com' and password 'password123', then click Sign Up (will show confirm password error)",
          ["Password and Confirm Password must match"]⟩]),
     (4, [⟨[⟨"type", "Email", "test@example.com"⟩, ⟨"type", "Password", "password123"⟩,
            ⟨"type", "Confirm Password", "password123"⟩, ⟨"click", "Sign Up", ""⟩],
          "Create an account with email 'test@example.com', password 'password123', confirm password, and click Sign Up",
          ["Account created successfully"]⟩]),
     (5, [⟨[⟨"type", "Email", "user@example.com"⟩, ⟨"type", "Password", "securepass"⟩,
            ⟨"type", "Confirm Password", "wrongpass"⟩, ⟨"click", "Sign Up", ""⟩,
            ⟨"type", "Confirm Password", "securepass"⟩],
          "Enter email 'user@example.com', password 'securepass', wrong confirm password, click Sign Up to see error, then fix confirm password",
          ["Password and Confirm Password must match", "securepass"]⟩])]),
   ("todo",
    [(1, [⟨[⟨"click", "Add Todo", ""⟩],
          "Click the Add Todo button (it will show an error for empty input)",
          ["empty", "error", "cannot"]⟩]),
     (2, [⟨[⟨"type", "New Todo", "Buy groceries"⟩, ⟨"click", "Add Todo", ""⟩],
          "Add a new todo item with the text 'Buy groceries'",
          ["Buy groceries", "todo", "Total"]⟩]),
     (3, [⟨[⟨"type", "New Todo", "First task"⟩, ⟨"click", "Add Todo", ""⟩,
            ⟨"click", "Complete", ""⟩],
          "Add a todo item called 'First task' and then mark it as complete",
          ["Completed", "1", "First task"]⟩]),
     (4, [⟨[⟨"type", "New Todo", "Task one"⟩, ⟨"click", "Add Todo", ""⟩,
            ⟨"type", "New Todo", "Task two"⟩, ⟨"click", "Add Todo", ""⟩],
          "Add two todo items: 'Task one' and 'Task two'",
          ["Task one", "Task two", "Total: 2"]⟩]),
     (5, [⟨[⟨"type", "New Todo", "Important task"⟩, ⟨"click", "Add Todo", ""⟩,
            ⟨"click", "Complete", ""⟩, ⟨"type", "New Todo", "Another task"⟩,
            ⟨"click", "Add Todo", ""⟩],
          "Add 'Important task', mark it complete, then add 'Another task'",
          ["Important task", "Another task", "Completed: 1"]⟩])]),
   ("cart",
    [(1, [⟨[⟨"click", "Checkout", ""⟩],
          "Click the Checkout button (cart is empty, will show error)",
          ["empty", "error", "must not"]⟩]),
     (2, [⟨[⟨"click", "Add to Cart Product A", ""⟩, ⟨"click", "Checkout", ""⟩],
          "Add Product A to cart and proceed to checkout",
          ["confirmed", "Order", "thank"]⟩]),
     (3, [⟨[⟨"click", "Add to Cart Product A", ""⟩, ⟨"click", "Add to Cart Product B", ""⟩,
            ⟨"click", "Checkout", ""⟩],
          "Add Product A and Product B to cart, then checkout",
          ["confirmed", "Order", "thank"]⟩]),
     (4, [⟨[⟨"click", "Add to Cart Product A", ""⟩, ⟨"type", "Coupon Code", "SAVE10"⟩,
            ⟨"click", "Apply Coupon", ""⟩, ⟨"click", "Checkout", ""⟩],
          "Add Product A to cart, apply coupon code SAVE10, then checkout",
          ["confirmed", "discount", "10%"]⟩]),
     (5, [⟨[⟨"click", "Add to Cart Product A", ""⟩, ⟨"click", "Add to Cart Product B", ""⟩,
            ⟨"type", "Coupon Code", "SAVE10"⟩, ⟨"click", "Apply Coupon", ""⟩,
            ⟨"click", "Checkout", ""⟩],
          "Add Product A and Product B to cart, apply coupon SAVE10, then checkout",
          ["confirmed", "discount", "Order"]⟩])]),
   ("settings",
    [(1, [⟨[⟨"click", "Email Alerts", ""⟩],
          "Toggle Email Alerts on (no save)",
          []⟩]),
     (2, [⟨[⟨"click", "Dark Mode", ""⟩, ⟨"click", "Save", ""⟩],
          "Enable Dark Mode and click Save",
          ["Settings saved successfully"]⟩]),
     (3, [⟨[⟨"click", "SMS Alerts", ""⟩, ⟨"click", "Dark Mode", ""⟩, ⟨"click", "Save", ""⟩],
          "Enable SMS Alerts and Dark Mode, then click Save",
          ["Settings saved successfully"]⟩]),
     (4, [⟨[⟨"click", "SMS Alerts", ""⟩, ⟨"click", "Dark Mode", ""⟩,
            ⟨"select", "Language", "Spanish"⟩, ⟨"click", "Save", ""⟩],
          "Enable SMS Alerts, Dark Mode, change language to Spanish, and click Save",
          ["Settings saved successfully"]⟩]),
     (5, [⟨[⟨"click", "Email Alerts", ""⟩, ⟨"click", "SMS Alerts", ""⟩,
            ⟨"click", "Dark Mode", ""⟩, ⟨"select", "Language", "English"⟩,
            ⟨"click", "Save", ""⟩],
          "Toggle Email Alerts, enable SMS Alerts and Dark Mode, set language to English, then Save",
          ["Settings saved successfully"]⟩])]),
   ("wizard",
    [(1, [⟨[⟨"click", "Next", ""⟩],
          "Click the Next button (will show validation errors)",
          ["required", "error", "First name"]⟩]),
     (2, [⟨[⟨"type", "First Name", "John"⟩, ⟨"click", "Next", ""⟩],
          "Enter first name 'John' and click Next (will show last name required)",
          ["required", "Last name", "error"]⟩]),
     (3, [⟨[⟨"type", "First Name", "John"⟩, ⟨"type", "Last Name", "Doe"⟩,
            ⟨"click", "Next", ""⟩],
          "Complete step 1 by entering first name 'John' and last name 'Doe', then proceed to step 2",
          ["Contact", "Email", "Step 2"]⟩]),
     (4, [⟨[⟨"type", "First Name", "John"⟩, ⟨"type", "Last Name", "Doe"⟩,
            ⟨"click", "Next", ""⟩, ⟨"type", "Email", "john@example.com"⟩],
          "Complete step 1 with name 'John Doe', go to step 2, and enter email",
          ["john@example.com", "Contact", "Phone"]⟩]),
     (5, [⟨[⟨"type", "First Name", "John"⟩, ⟨"type", "Last Name", "Doe"⟩,
            ⟨"click", "Next", ""⟩, ⟨"type", "Email", "john@example.com"⟩,
            ⟨"click", "Next", ""⟩],
          "Complete steps 1 and 2 of the wizard with name 'John Doe' and email 'john@example.com'",
          ["Review", "John", "Doe", "john@example.com"]⟩]),
     (6, [⟨[⟨"type", "First Name", "John"⟩, ⟨"type", "Last Name", "Doe"⟩,
            ⟨"click", "Next", ""⟩, ⟨"type", "Email", "john@example.com"⟩,
            ⟨"click", "Next", ""⟩, ⟨"click", "Submit", ""⟩],
          "Complete the entire wizard: enter name 'John Doe', email 'john@example.com', and submit",
          ["success", "submitted", "thank"]⟩])])]

/-- Look up a site's template buckets in the catalog
(`SITE_ACTION_TEMPLATES[site]`, `none` when the site key is absent). -/
def lookupSite (site : String) : Option (List (Nat × List Template)) :=
  (SITE_ACTION_TEMPLATES.find? (fun p => p.1 == site)).map (fun p => p.2)

/-- Look up a difficulty bucket inside one site's buckets
(`site_templates[diff]`; in `_find_template_combinations` the key is always
present because it is drawn from `available_difficulties`). -/
def bucketFor (buckets : List (Nat × List Template)) (d : Nat) : List Template :=
  ((buckets.find? (fun p => p.1 == d)).map (fun p => p.2)).getD []

/-- Python exceptions that escape the embedded fragments. -/
inductive PyErr
  | typeError
  | attributeError
deriving DecidableEq

/-- Decidable equality of `Except` results, for evaluating closed runs. -/
instance {ε α : Type} [DecidableEq ε] [DecidableEq α] : DecidableEq (Except ε α) := fun x y =>
  match x, y with
  | .ok a, .ok b =>
    if h : a = b then .isTrue (by rw [h])
    else .isFalse (by intro hc; cases hc; exact h rfl)
  | .error a, .error b =>
    if h : a = b then .isTrue (by rw [h])
    else .isFalse (by intro hc; cases hc; exact h rfl)
  | .ok _, .error _ => .isFalse (by intro hc; cases hc)
  | .error _, .ok _ => .isFalse (by intro hc; cases hc)

/-- A Python call `f(**kwargs)` raises
`TypeError: __init__() got an unexpected keyword argument` exactly when
some provided keyword is not among the accepted parameter names. -/
def raisesUnexpectedKeyword (accepted provided : List String) : Bool :=
  provided.any (fun k => !(accepted.contains k))

/-- The keyword arguments passed to `Task(...)` inside
`TaskGenerator._generate_by_chaining` (generator.py, the construction with
`is_chained=True, chained_from=template_ids`). -/
def chainingTaskKeywords : List String :=
  ["id", "site", "description", "success_criteria",
   "estimated_replans", "replan_reasoning", "is_chained", "chained_from"]

/-- Backtracking core of `TaskGenerator._find_template_combinations`
(the nested `find_combos`).  `fuel` is `max_templates - depth`; the
`start_diff` parameter of the source is threaded but never read, so it is
omitted.  `choose` stands for the `random.choice(templates)` pick. -/
def findCombosAux (choose : List Template → Template)
    (buckets : List (Nat × List Template)) (avail : List Nat)
    (fuel remaining : Nat) (current : List (Nat × Template)) :
    List (List (Nat × Template)) :=
  if remaining = 0 ∧ 2 ≤ current.length then [current]
  else
    match fuel with
    | 0 => []
    | fuel' + 1 =>
      (avail.map (fun diff =>
        if remaining < diff then []
        else findCombosAux choose buckets avail fuel' (remaining - diff)
          (current ++ [(diff, choose (bucketFor buckets diff))]))).flatten

/-- `TaskGenerator._find_template_combinations`: all ordered combinations of
templates whose difficulties sum to `target`, at most `max_templates` long.
The difficulty keys of the catalog are stored in ascending order, so
`sorted(site_templates.keys())` is the key list as written. -/
def find_template_combinations (choose : List Template → Template)
    (buckets : List (Nat × List Template)) (target max_templates : Nat) :
    List (List (Nat × Template)) :=
  let avail := buckets.map (fun p => p.1)
  findCombosAux choose buckets avail max_templates target []

/-- `TaskGenerator._build_chained_description`. -/
def build_chained_description (descriptions : List String) : String :=
  if descriptions.length = 2 then
    "First, " ++ lowerStr (descriptions.getD 0 "") ++ ". Then, " ++
      lowerStr (descriptions.getD 1 "") ++ "."
  else
    let parts := descriptions.enum.map (fun p =>
      let descLower := lowerStr p.2
      let descLower := if leadsWith "click the ".data descLower.data then
          "click the " ++ (⟨descLower.data.drop 10⟩ : String)
        else descLower
      if p.1 = 0 then "First, " ++ descLower
      else if p.1 = descriptions.length - 1 then "Finally, " ++ descLower
      else "Then, " ++ descLower)
    String.intercalate ". " parts ++ "."

/-- Order-preserving deduplication of the merged success hints
(the `seen_hints`/`unique_hints` loop of `_generate_by_chaining`). -/
def uniqueKeepOrder (seen : List String) : List String → List String
  | [] => []
  | h :: rest =>
    if seen.contains h then uniqueKeepOrder seen rest
    else h :: uniqueKeepOrder (seen ++ [h]) rest

/-- Body of the `for combination in valid_combinations` loop of
`TaskGenerator._generate_by_chaining`.  The construction `Task(...,
is_chained=True, chained_from=template_ids)` passes keywords the `Task`
dataclass does not declare, so reaching it raises `TypeError`. -/
def chainingLoop (newId site : String) (target : Nat) (existing : List String) :
    List (List (Nat × Template)) → Except PyErr (Option Task)
  | [] => .ok none
  | combination :: rest =>
    let combined_actions := (combination.map (fun p => p.2.actions)).flatten
    let combined_hints := (combination.map (fun p => p.2.success_hints)).flatten
    let descriptions := combination.map (fun p => p.2.task)
    let chained_description := build_chained_description descriptions
    if existing.contains (lowerStr (trimStr chained_description)) then
      chainingLoop newId site target existing rest
    else
      let unique_hints := uniqueKeepOrder [] combined_hints
      let unique_hints := if 4 < unique_hints.length then
          unique_hints.drop (unique_hints.length - 4)
        else unique_hints
      if raisesUnexpectedKeyword Task.initParams chainingTaskKeywords then
        .error .typeError
      else
        .ok (some
          { id := newId, site := site, description := chained_description,
            success_criteria :=
              { description := "Complete " ++ toString combination.length ++
                  " subtasks in sequence (" ++ toString target ++ " total actions)",
                hints := unique_hints },
            estimated_replans := combination.length,
            replan_reasoning := "Chained from " ++ toString combination.length ++
              " templates: " ++ String.intercalate " + "
                (combination.map (fun p => "d" ++ toString p.1)),
            expected_actions := some combined_actions })

/-- `TaskGenerator._generate_by_chaining`.  `choose` models
`random.choice`, `shuffle` models `random.shuffle`, and `newId` models the
fresh `uuid` prefix. -/
def generate_by_chaining (choose : List Template → Template)
    (shuffle : List (List (Nat × Template)) → List (List (Nat × Template)))
    (newId site : String) (target_difficulty : Nat)
    (existing_tasks : List Task) : Except PyErr (Option Task) :=
  match lookupSite site with
  | none => .ok none
  | some site_templates =>
    let valid_combinations :=
      find_template_combinations choose site_templates target_difficulty 3
    if valid_combinations.isEmpty then .ok none
    else
      let existing_descriptions :=
        (existing_tasks.filter (fun t => t.site == site)).map
          (fun t => lowerStr (trimStr t.description))
      chainingLoop newId site target_difficulty existing_descriptions
        (shuffle valid_combinations)

/-- `TaskGenerator._generate_from_template`. -/
def generate_from_template (choose : List Template → Template) (newId : String)
    (site : String) (target_difficulty : Nat) (existing_tasks : List Task) :
    Option Task :=
  match lookupSite site with
  | none => none
  | some site_templates =>
    match (site_templates.find? (fun p => p.1 == target_difficulty)).map
        (fun p => p.2) with
    | none => none
    | some templates =>
      let existing_descriptions :=
        (existing_tasks.filter (fun t => t.site == site)).map
          (fun t => lowerStr (trimStr t.description))
      let available_templates := templates.filter
        (fun tmpl => !(existing_descriptions.contains (lowerStr (trimStr tmpl.task))))
      if available_templates.isEmpty then none
      else
        let template := choose available_templates
        some
          { id := newId, site := site, description := template.task,
            success_criteria :=
              { description := "Task requires exactly " ++ toString target_difficulty ++
                  " actions: " ++ template.task,
                hints := template.success_hints },
            estimated_replans := if target_difficulty ≤ 2 then 1 else 2,
            replan_reasoning := "Template-based task with " ++
              toString target_difficulty ++ " predefined actions",
            expected_actions := some template.actions }

/-- Canonical instantiation of `random.choice`: the first element. -/
def defaultChoose (ts : List Template) : Template :=
  ts.headD ⟨[], "", []⟩


/-! ## Oracle (src/oracle.py) -/

/-- Result of oracle validation (`oracle.OracleResult`), with the source
constructor's default field values. -/
structure OracleResult where
  valid : Bool
  steps_taken : Nat := 0
  tokens_used : Nat := 0
  reason : String := ""
  difficulty_match : Bool := true
  expected_steps : Nat := 0
  inference_calls : Nat := 0
deriving DecidableEq

/-- `OracleResult.is_valid_for_curriculum` (oracle.py).  Defined in the
source but never invoked by `TaskCurriculum.build_pool`.  `abs(steps -
expected)` on Python ints is the natural distance here. -/
def OracleResult.is_valid_for_curriculum (r : OracleResult) (tolerance : Nat) : Bool :=
  if r.valid = false then false
  else if r.expected_steps = 0 then true
  else (max r.steps_taken r.expected_steps - min r.steps_taken r.expected_steps) ≤ tolerance

/-- `Oracle._check_success`: some task hint occurs case-insensitively in
the page's visible text (no hints means no success signal). -/
def check_success (state : PageState) (task : Task) : Bool :=
  if task.success_criteria.hints.isEmpty then false
  else
    let text_lower := lowerStr state.visible_text
    task.success_criteria.hints.any
      (fun hint => hasSubstring (lowerStr hint).data text_lower.data)

/-- Outcome of one `env.step(action)` call (`WebEnvironment.step` raises
`ElementNotFoundError` or `PageTimeoutError`). -/
inductive StepResult
  | ok (state : PageState)
  | elementNotFound
  | pageTimeout
deriving DecidableEq

/-- Behaviour of one validation run's external collaborators: the
environment's `reset` (an `error` is a `PageTimeoutError` whose text is the
payload) and `step`, and the post-parse outcome of `Oracle._predict_action`
for the k-th LLM call together with its token count (`none` models both
the "done" sentinel and a parse failure, exactly as the source returns
`None`). -/
structure OracleRun where
  reset : Except String PageState
  step : PageState → Action → StepResult
  predict : Nat → PageState → Option Action × Nat

/-- The `for step in range(max_steps)` loop of `Oracle.validate`.  `fuel`
is the number of remaining iterations; `callIdx` numbers the LLM calls.
Reading `task.expected_actions` on a task that never had the attribute set
raises `AttributeError`, modeled as `.error .attributeError`. -/
def validateLoop (run : OracleRun) (task : Task) (max_steps fuel : Nat)
    (state : PageState) (callIdx : Nat) (actions_taken : List Action)
    (total_tokens inference_calls : Nat) : Except PyErr OracleResult :=
  match fuel with
  | 0 =>
    .ok { valid := false, steps_taken := actions_taken.length,
          tokens_used := total_tokens,
          reason := "Max steps (" ++ toString max_steps ++ ") exceeded without completion",
          inference_calls := inference_calls }
  | fuel' + 1 =>
    let pr := run.predict callIdx state
    let total_tokens' := total_tokens + pr.2
    let inference_calls' := inference_calls + 1
    match pr.1 with
    | none =>
      -- the `break` lands on the same "max steps" return after the loop
      .ok { valid := false, steps_taken := actions_taken.length,
            tokens_used := total_tokens',
            reason := "Max steps (" ++ toString max_steps ++ ") exceeded without completion",
            inference_calls := inference_calls' }
    | some action =>
      let taken := actions_taken ++ [action]
      match run.step state action with
      | .elementNotFound =>
        .ok { valid := false, steps_taken := taken.length, tokens_used := total_tokens',
              reason := "Element not found: " ++ action.element,
              inference_calls := inference_calls' }
      | .pageTimeout =>
        .ok { valid := false, steps_taken := taken.length, tokens_used := total_tokens',
              reason := "Page timeout during action",
              inference_calls := inference_calls' }
      | .ok state' =>
        if check_success state' task then
          match task.expected_actions with
          | none => .error .attributeError
          | some l =>
            let expected := if l.isEmpty then 0 else l.length
            let steps := taken.length
            if 0 < expected ∧ steps < expected then
              validateLoop run task max_steps fuel' state' (callIdx + 1)
                taken total_tokens' inference_calls'
            else
              .ok { valid := true, steps_taken := steps, tokens_used := total_tokens',
                    reason := "Task completed successfully",
                    difficulty_match := expected == 0 || steps == expected,
                    expected_steps := expected, inference_calls := inference_calls' }
        else
          validateLoop run task max_steps fuel' state' (callIdx + 1)
            taken total_tokens' inference_calls'

/-- `Oracle.validate`: reset the environment, then drive the per-step
prediction loop. -/
def validate (run : OracleRun) (task : Task) (max_steps : Nat) :
    Except PyErr OracleResult :=
  match run.reset with
  | .error e => .ok { valid := false, reason := "Page load failed: " ++ e }
  | .ok state => validateLoop run task max_steps max_steps state 0 [] 0 0

/-! ## Persistence records (src/models.py to_dict/from_dict) -/

/-- A parsed JSON `success_criteria` sub-record; `none` models an absent
key. -/
structure SuccessCriteriaRecord where
  description : Option String
  hints : Option (List String)
deriving DecidableEq

/-- A parsed JSON task record, as consumed by `Task.from_dict` and the
normalization helpers.  A `none` in a slot that `from_dict` indexes with
`data[...]` models an absent key (so indexing raises `KeyError`); slots
read with `.get` mirror their defaults.  `expected_actions` is present
only to model `td.get("expected_actions")`: `Task.to_dict` never emits
that key. -/
structure TaskRecord where
  id : Option String
  site : Option String
  description : Option String
  success_criteria : Option SuccessCriteriaRecord
  estimated_replans : Option Nat
  replan_reasoning : Option String
  min_actions : Option Nat
  oracle_tokens : Option Nat
  validated : Option Bool
  expected_actions : Option (List Action)
deriving DecidableEq

/-- `Task.to_dict` (models.py).  Every emitted key is present; there is no
"expected_actions" key in the output. -/
def Task.to_dict (t : Task) : TaskRecord :=
  { id := some t.id, site := some t.site, description := some t.description,
    success_criteria := some
      { description := some t.success_criteria.description,
        hints := some t.success_criteria.hints },
    estimated_replans := some t.estimated_replans,
    replan_reasoning := some t.replan_reasoning,
    min_actions := t.min_actions,
    oracle_tokens := t.oracle_tokens,
    validated := some t.validated,
    expected_actions := none }

/-- `Task.from_dict` (models.py): a missing required key raises `KeyError`
(`.error`); `hints` and `validated` fall back to their `.get` defaults.
The reconstructed task never carries the dynamic `expected_actions`
attribute. -/
def Task.from_dict (d : TaskRecord) : Except Unit Task :=
  match d.id, d.site, d.description, d.success_criteria,
        d.estimated_replans, d.replan_reasoning with
  | some i, some s, some desc, some sc, some er, some rr =>
    match sc.description with
    | some scdesc =>
      .ok { id := i, site := s, description := desc,
            success_criteria := { description := scdesc, hints := sc.hints.getD [] },
            estimated_replans := er, replan_reasoning := rr,
            min_actions := d.min_actions, oracle_tokens := d.oracle_tokens,
            validated := d.validated.getD false, expected_actions := none }
    | none => .error ()
  | _, _, _, _, _, _ => .error ()

/-! ## Curriculum (src/curriculum.py) -/

/-- The normalized deduplication key: (site, description, action triples),
all lowercased/trimmed. -/
abbrev NormKey := String × String × List (String × String × String)

/-- The shared normalization formula of `build_pool.normalize_task` and
`save.normalize_task_dict`, applied to a serialized record.  Because
`Task.to_dict` emits no "expected_actions" key, the action component is
always `[]` for keys computed from `to_dict` output. -/
def normalizeRecord (td : TaskRecord) : NormKey :=
  (lowerStr (trimStr (td.site.getD "")),
   lowerStr (trimStr (td.description.getD "")),
   (td.expected_actions.getD []).map
     (fun a => (a.action, lowerStr (trimStr a.element), a.value)))

/-- `normalize_task` inside `build_pool`: normalization of a live task via
its `to_dict` serialization. -/
def normalize_task (t : Task) : NormKey :=
  normalizeRecord t.to_dict

/-- The three mutations applied to an accepted task in `build_pool`. -/
def admitTask (t : Task) (r : OracleResult) : Task :=
  { t with min_actions := some r.steps_taken,
           oracle_tokens := some r.tokens_used,
           validated := true }

/-- One iteration body of the `while` loop of `TaskCurriculum.build_pool`:
given this attempt's generator candidate and the oracle's behaviour,
either skip (no candidate, duplicate key, invalid result, or difficulty
out of `[d, d+1]`) or append the admitted task and record its key. -/
def poolStep (difficulty : Nat) (validateResult : Task → OracleResult)
    (acc : List Task × List NormKey) (cand : Option Task) :
    List Task × List NormKey :=
  match cand with
  | none => acc
  | some task =>
    let key := normalize_task task
    if acc.2.contains key then acc
    else
      let result := validateResult task
      if result.valid then
        if difficulty ≤ result.steps_taken ∧ result.steps_taken ≤ difficulty + 1 then
          (acc.1 ++ [admitTask task result], acc.2 ++ [key])
        else acc
      else acc

/-- The bounded `while` loop of `build_pool` for one difficulty: the
candidate stream is the sequence of generator outputs over the attempts
(its length is the attempt budget); the loop stops filling once the bucket
reaches `tasks_per_difficulty`. -/
def buildLoop (difficulty tasks_per_difficulty : Nat)
    (validateResult : Task → OracleResult) (cands : List (Option Task))
    (acc : List Task × List NormKey) : List Task × List NormKey :=
  cands.foldl (fun a cand =>
    if a.1.length < tasks_per_difficulty then poolStep difficulty validateResult a cand
    else a) acc

/-- One difficulty bucket of the global deduplication in
`TaskCurriculum.save`: serialized unique task dicts plus the grown seen
set. -/
def dedupBucket (seen : List NormKey) : List Task → List TaskRecord × List NormKey
  | [] => ([], seen)
  | t :: ts =>
    let td := t.to_dict
    let key := normalizeRecord td
    if seen.contains key then dedupBucket seen ts
    else
      let rec_rest := dedupBucket (seen ++ [key]) ts
      (td :: rec_rest.1, rec_rest.2)

/-- `TaskCurriculum.save`: serialize the pool keyed by difficulty with a
single seen-set shared across the difficulty buckets.  Python writes
`str(difficulty)` keys and `load` parses them back with `int(...)`; that
encode/decode pair is the identity on the difficulties, so the key is kept
as `Nat`. -/
def savePool (seen : List NormKey) : List (Nat × List Task) → List (Nat × List TaskRecord)
  | [] => []
  | (d, ts) :: rest =>
    let bucket := dedupBucket seen ts
    (d, bucket.1) :: savePool bucket.2 rest

/-- Task-level rendering of the same save-time deduplication (used only to
state the round-trip theorem). -/
def dedupBucketTasks (seen : List NormKey) : List Task → List Task × List NormKey
  | [] => ([], seen)
  | t :: ts =>
    let key := normalize_task t
    if seen.contains key then dedupBucketTasks seen ts
    else
      let rec_rest := dedupBucketTasks (seen ++ [key]) ts
      (t :: rec_rest.1, rec_rest.2)

/-- Task-level global deduplication across buckets. -/
def dedupPool (seen : List NormKey) : List (Nat × List Task) → List (Nat × List Task)
  | [] => []
  | (d, ts) :: rest =>
    let bucket := dedupBucketTasks seen ts
    (d, bucket.1) :: dedupPool bucket.2 rest

/-- Reconstruction through `to_dict`/`from_dict` keeps every persisted
field and drops only the dynamic `expected_actions` attribute. -/
def Task.stripDynamic (t : Task) : Task :=
  { t with expected_actions := none }

/-- Content of the pool cache file as seen by `TaskCurriculum.load`. -/
inductive PoolFile
  | absent
  | notJson
  | doc (d : List (Nat × List TaskRecord))

/-- The list comprehension `[Task.from_dict(t) for t in tasks_data]`: the
first `KeyError` aborts the whole bucket. -/
def loadTasks : List TaskRecord → Except Unit (List Task)
  | [] => .ok []
  | td :: rest =>
    match Task.from_dict td with
    | .error e => .error e
    | .ok t =>
      match loadTasks rest with
      | .error e => .error e
      | .ok ts => .ok (t :: ts)

/-- Loop of `TaskCurriculum.load` over the parsed document; an exception
while rebuilding a bucket is caught and reported as `false`, leaving the
pool partially rebuilt. -/
def loadBuckets (acc : List (Nat × List Task)) :
    List (Nat × List TaskRecord) → Bool × List (Nat × List Task)
  | [] => (true, acc)
  | (d, tds) :: rest =>
    match loadTasks tds with
    | .error _ => (false, acc)
    | .ok ts => loadBuckets (acc ++ [(d, ts)]) rest

/-- `TaskCurriculum.load`: `false` without raising when the file is absent
(`path.exists()` guard) or not valid JSON (`json.loads` raises before the
pool is reset); otherwise rebuild the pool from the document. -/
def loadPool (file : PoolFile) (old_pool : List (Nat × List Task)) :
    Bool × List (Nat × List Task) :=
  match file with
  | .absent => (false, old_pool)
  | .notJson => (false, old_pool)
  | .doc d => loadBuckets [] d

/-! ## LLM fallback generation (src/generator.py) -/

/-- The parsed response of the generation service in
`TaskGenerator._generate_from_llm` after `_parse_response` verified the
required fields. -/
structure ParsedTaskData where
  description : String
  success_criteria : String
  success_hints : List String := []
  estimated_replans : Nat
  replan_reasoning : String
deriving DecidableEq

/-- The `Task(...)` construction inside `TaskGenerator._generate_from_llm`:
only the six declared keywords are passed, and no `expected_actions`
attribute is ever attached afterwards. -/
def llmTask (newId site : String) (data : ParsedTaskData) : Task :=
  { id := newId, site := site, description := data.description,
    success_criteria :=
      { description := data.success_criteria, hints := data.success_hints },
    estimated_replans := data.estimated_replans,
    replan_reasoning := data.replan_reasoning }

/-! ## Evaluation pipeline (src/evaluation.py) -/

/-- Status of an episode (`models.EpisodeStatus`). -/
inductive EpisodeStatus
  | success
  | failure
  | skipped
deriving DecidableEq

/-- Result of a single task attempt (`models.EpisodeResult`).  The source
passes `task.min_actions` (an optional) for both the `difficulty` and
`min_actions` slots and `task.oracle_tokens` for `single_step_tokens`, so
those are optional here. -/
structure EpisodeResult where
  task_id : String
  difficulty : Option Nat
  status : EpisodeStatus
  actual_actions : Nat
  actual_inference_calls : Nat
  min_actions : Option Nat
  expected_inference_calls : Nat
  multi_step_tokens : Nat
  single_step_tokens : Option Nat
  reward : ℝ
  failure_reason : Option String := none
  action_history : List Action := []

/-- Behaviour of one evaluation episode's external collaborators: the
environment's `reset`/`step`, the post-parse outcome of
`MultiStepAgent.predict` for the k-th call (actions plus token count; a
parse failure yields `[]` as in the source), and the verifier's judgment. -/
structure EpisodeRun where
  reset : Except String PageState
  step : PageState → Action → StepResult
  predict : Nat → PageState → List Action × Nat
  verify : Task → PageState → Bool

/-- Outcome of executing one predicted action batch. -/
inductive BatchResult
  | ok (state : PageState) (total_actions : Nat) (history : List Action)
  | timeout (total_actions : Nat) (history : List Action)
deriving DecidableEq

/-- The `for action in actions` batch execution inside
`EvaluationPipeline._run_episode`: an unresolved element skips that single
action, a page timeout aborts the batch. -/
def execBatch (step : PageState → Action → StepResult) (state : PageState)
    (actions : List Action) (total_actions : Nat) (history : List Action) :
    BatchResult :=
  match actions with
  | [] => .ok state total_actions history
  | a :: rest =>
    match step state a with
    | .ok s' => execBatch step s' rest (total_actions + 1) (history ++ [a])
    | .elementNotFound => execBatch step state rest total_actions history
    | .pageTimeout => .timeout total_actions history

/-- The `while self.agent.inference_calls < max_calls` loop of
`EvaluationPipeline._run_episode`.  Emptied predictions `break` to the same
"Max iterations exceeded" return that follows the loop.  The reward on
success uses the task's stored baseline; evaluation replays pooled tasks,
whose `min_actions` is always set, hence the `getD 0` read of the
optional. -/
noncomputable def episodeLoop (cfg : RewardConfig) (run : EpisodeRun) (task : Task)
    (max_calls : Nat) (state : PageState)
    (inference_calls total_tokens total_actions : Nat) (history : List Action) :
    EpisodeResult :=
  if _h : inference_calls < max_calls then
    let pr := run.predict inference_calls state
    let total_tokens' := total_tokens + pr.2
    let calls' := inference_calls + 1
    if pr.1.isEmpty then
      { task_id := task.id, difficulty := task.min_actions, status := .failure,
        actual_actions := total_actions, actual_inference_calls := calls',
        min_actions := task.min_actions,
        expected_inference_calls := task.expected_inference_calls,
        multi_step_tokens := total_tokens', single_step_tokens := task.oracle_tokens,
        reward := 0, failure_reason := some "Max iterations exceeded",
        action_history := history }
    else
      match execBatch run.step state pr.1 total_actions history with
      | .timeout ta hist =>
        { task_id := task.id, difficulty := task.min_actions, status := .failure,
          actual_actions := ta, actual_inference_calls := calls',
          min_actions := task.min_actions,
          expected_inference_calls := task.expected_inference_calls,
          multi_step_tokens := total_tokens', single_step_tokens := task.oracle_tokens,
          reward := 0, failure_reason := some "Page timeout", action_history := hist }
      | .ok s' ta hist =>
        if run.verify task s' then
          { task_id := task.id, difficulty := task.min_actions, status := .success,
            actual_actions := ta, actual_inference_calls := calls',
            min_actions := task.min_actions,
            expected_inference_calls := task.expected_inference_calls,
            multi_step_tokens := total_tokens', single_step_tokens := task.oracle_tokens,
            reward := RewardCalculator.compute cfg true ta calls'
              (task.min_actions.getD 0) task.expected_inference_calls,
            action_history := hist }
        else
          episodeLoop cfg run task max_calls s' calls' total_tokens' ta hist
  else
    { task_id := task.id, difficulty := task.min_actions, status := .failure,
      actual_actions := total_actions, actual_inference_calls := inference_calls,
      min_actions := task.min_actions,
      expected_inference_calls := task.expected_inference_calls,
      multi_step_tokens := total_tokens, single_step_tokens := task.oracle_tokens,
      reward := 0, failure_reason := some "Max iterations exceeded",
      action_history := history }
termination_by max_calls - inference_calls
decreasing_by omega

/-- `EvaluationPipeline._run_episode`: the call budget is the task's
expected inference calls plus the configured buffer; a reset failure yields
a `skipped` episode before any counters move. -/
noncomputable def run_episode (cfg : RewardConfig) (run : EpisodeRun) (task : Task)
    (max_inference_calls_buffer : Nat) : EpisodeResult :=
  let max_calls := task.expected_inference_calls + max_inference_calls_buffer
  match run.reset with
  | .error e =>
    { task_id := task.id, difficulty := task.min_actions, status := .skipped,
      actual_actions := 0, actual_inference_calls := 0,
      min_actions := task.min_actions,
      expected_inference_calls := task.expected_inference_calls,
      multi_step_tokens := 0, single_step_tokens := task.oracle_tokens,
      reward := 0, failure_reason := some e, action_history := [] }
  | .ok state => episodeLoop cfg run task max_calls state 0 0 0 []

/-! ## Concrete run fixtures used by the closed theorems -/

/-- A page with given title and visible text and nothing else. -/
def mkPage (title text : String) : PageState :=
  { url := "http://localhost:3000/todo/", title := title,
    interactive_elements := [], visible_text := text, errors := [] }

/-- The difficulty-2 todo template task as produced by
`generate_from_template` with id "c3". -/
def c3Task : Task :=
  { id := "c3", site := "todo",
    description := "Add a new todo item with the text 'Buy groceries'",
    success_criteria :=
      { description := "Task requires exactly 2 actions: Add a new todo item with the text 'Buy groceries'",
        hints := ["Buy groceries", "todo", "Total"] },
    estimated_replans := 1,
    replan_reasoning := "Template-based task with 2 predefined actions",
    expected_actions := some [⟨"type", "New Todo", "Buy groceries"⟩,
                              ⟨"click", "Add Todo", ""⟩] }

/-- An oracle run in which the model wastes its first action: the success
hint appears only after the third executed action. -/
def c3Run : OracleRun :=
  { reset := .ok (mkPage "p0" ""),
    step := fun s _ =>
      if s.title == "p0" then .ok (mkPage "p1" "")
      else if s.title == "p1" then .ok (mkPage "p2" "")
      else if s.title == "p2" then .ok (mkPage "p3" "Total: 1")
      else .pageTimeout,
    predict := fun i _ =>
      if i == 0 then (some ⟨"click", "Add Todo", ""⟩, 5)
      else if i == 1 then (some ⟨"type", "New Todo", "Buy groceries"⟩, 5)
      else (some ⟨"click", "Add Todo", ""⟩, 5) }

/-- The oracle result of `validate c3Run c3Task 4`. -/
def c3Result : OracleResult :=
  { valid := true, steps_taken := 3, tokens_used := 15,
    reason := "Task completed successfully", difficulty_match := false,
    expected_steps := 2, inference_calls := 3 }

/-- The same template task driven without a wasted action: the hint
appears after the second executed action. -/
def c4wRun : OracleRun :=
  { reset := .ok (mkPage "q0" ""),
    step := fun s _ =>
      if s.title == "q0" then .ok (mkPage "q1" "")
      else if s.title == "q1" then .ok (mkPage "q2" "Total: 1")
      else .pageTimeout,
    predict := fun i _ =>
      if i == 0 then (some ⟨"type", "New Todo", "Buy groceries"⟩, 5)
      else (some ⟨"click", "Add Todo", ""⟩, 5) }

/-- A task produced by the LLM fallback: it has success hints but no
`expected_actions` attribute. -/
def c4Task : Task :=
  llmTask "c4" "todo"
    { description := "Add one todo item",
      success_criteria := "One todo item exists",
      success_hints := ["Total"],
      estimated_replans := 1,
      replan_reasoning := "Simple task" }

/-- A run in which the first executed action already surfaces the hint. -/
def c4Run : OracleRun :=
  { reset := .ok (mkPage "r0" ""),
    step := fun _ _ => .ok (mkPage "r1" "Total: 1"),
    predict := fun _ _ => (some ⟨"click", "Add Todo", ""⟩, 7) }

/-- A serialized task record with every field present, as written by
`save`. -/
def c9Record : TaskRecord :=
  { id := some "c9", site := some "todo", description := some "Add one todo",
    success_criteria := some { description := some "One todo exists",
                               hints := some ["Total"] },
    estimated_replans := some 1, replan_reasoning := some "r",
    min_actions := some 2, oracle_tokens := some 120,
    validated := some true, expected_actions := none }

/-- The task `Task.from_dict` rebuilds from `c9Record`: note the absent
dynamic `expected_actions` attribute. -/
def c9Task : Task :=
  { id := "c9", site := "todo", description := "Add one todo",
    success_criteria := { description := "One todo exists", hints := ["Total"] },
    estimated_replans := 1, replan_reasoning := "r",
    min_actions := some 2, oracle_tokens := some 120,
    validated := true, expected_actions := none }

/-- A run in which the reloaded task's hint matches right after the first
executed action. -/
def c9Run : OracleRun :=
  { reset := .ok (mkPage "s0" ""),
    step := fun _ _ => .ok (mkPage "s1" "Total: 1"),
    predict := fun _ _ => (some ⟨"click", "Add Todo", ""⟩, 3) }

/-- A validated pool task used by the evaluation-episode theorems. -/
def c8Task : Task :=
  { id := "c8", site := "todo", description := "Do it",
    success_criteria := { description := "sc", hints := ["Total"] },
    estimated_replans := 1, replan_reasoning := "r",
    min_actions := some 2, oracle_tokens := some 50,
    validated := true, expected_actions := none }

/-- An evaluation run whose verifier never reports success: the call
budget (1 expected call + buffer 2) runs out. -/
def c8Run : EpisodeRun :=
  { reset := .ok (mkPage "e0" ""),
    step := fun s _ => .ok s,
    predict := fun _ _ => ([⟨"click", "X", ""⟩], 5),
    verify := fun _ _ => false }

/-- The oracle result of `validate c4wRun c3Task 4`: success on exactly the
expected step count. -/
def c4wResult : OracleResult :=
  { valid := true, steps_taken := 2, tokens_used := 10,
    reason := "Task completed successfully", difficulty_match := true,
    expected_steps := 2, inference_calls := 2 }

/-- An evaluation run whose environment reset raises a page timeout. -/
def c8SkipRun : EpisodeRun :=
  { reset := .error "Page load timed out",
    step := fun s _ => .ok s,
    predict := fun _ _ => ([], 0),
    verify := fun _ _ => false }

/-- A malformed task record: the required "id" key is absent, so
`Task.from_dict` raises `KeyError`. -/
def badRecord : TaskRecord :=
  { id := none, site := some "todo", description := some "d",
    success_criteria := some { description := some "sc", hints := some [] },
    estimated_replans := some 1, replan_reasoning := some "r",
    min_actions := none, oracle_tokens := none,
    validated := some false, expected_actions := none }

/-! ## Theorems: reward calculator (C5, C6) -/

lemma action_efficiency_nonneg (m a : Nat) : 0 ≤ action_efficiency m a := by
  unfold action_efficiency
  split
  · exact le_min zero_le_one (div_nonneg (Nat.cast_nonneg m) (Nat.cast_nonneg a))
  · exact le_refl 0

lemma action_efficiency_le_one (m a : Nat) : action_efficiency m a ≤ 1 := by
  unfold action_efficiency
  split
  · exact min_le_left 1 _
  · exact zero_le_one

lemma inference_efficiency_nonneg (e a : Nat) : 0 ≤ inference_efficiency e a := by
  unfold inference_efficiency
  split
  · exact le_min zero_le_one (div_nonneg (Nat.cast_nonneg e) (Nat.cast_nonneg a))
  · exact le_refl 0

lemma inference_efficiency_le_one (e a : Nat) : inference_efficiency e a ≤ 1 := by
  unfold inference_efficiency
  split
  · exact min_le_left 1 _
  · exact zero_le_one

lemma penalty_factor_pos (k x : ℝ) : 0 < Real.exp (-k * x) := Real.exp_pos _

lemma penalty_factor_le_one (k x : ℝ) (hk : 0 ≤ k) (hx : 0 ≤ x) :
    Real.exp (-k * x) ≤ 1 := by
  rw [Real.exp_le_one_iff]
  have : 0 ≤ k * x := mul_nonneg hk hx
  linarith

/-- Weighted base score of `compute` is in `[0, 1]` for the default
weights 0.6 and 0.4. -/
lemma reward_base_bounds (ae ie : ℝ) (h0 : 0 ≤ ae) (h1 : ae ≤ 1)
    (h2 : 0 ≤ ie) (h3 : ie ≤ 1) :
    0 ≤ (0.6 : ℝ) * ae + 0.4 * ie ∧ (0.6 : ℝ) * ae + 0.4 * ie ≤ 1 := by
  constructor <;> nlinarith

/-- C5: with the default configuration, `RewardCalculator.compute` always
lies in `[0, 1]`; failure yields exactly `0`; and with zero actual actions
the action-efficiency term is `0` (no division by zero). -/
theorem reward_compute_in_unit_interval (success : Bool)
    (aa aic ma eic : Nat) :
    0 ≤ RewardCalculator.compute {} success aa aic ma eic ∧
    RewardCalculator.compute {} success aa aic ma eic ≤ 1 ∧
    (success = false → RewardCalculator.compute {} success aa aic ma eic = 0) ∧
    action_efficiency ma 0 = 0 := by
  have hae0 : action_efficiency ma 0 = 0 := by
    unfold action_efficiency
    simp
  have hb := reward_base_bounds (action_efficiency ma aa) (inference_efficiency eic aic)
    (action_efficiency_nonneg ma aa) (action_efficiency_le_one ma aa)
    (inference_efficiency_nonneg eic aic) (inference_efficiency_le_one eic aic)
  have hp1 := (penalty_factor_pos (0.15 : ℝ) (max 0 ((aa : ℝ) - (ma : ℝ)))).le
  have hp2 := (penalty_factor_pos (0.05 : ℝ) (max 0 ((aic : ℝ) - (eic : ℝ)))).le
  have hp1' : Real.exp (-(0.15 : ℝ) * max 0 ((aa : ℝ) - (ma : ℝ))) ≤ 1 :=
    penalty_factor_le_one _ _ (by norm_num) (le_max_left 0 _)
  have hp2' : Real.exp (-(0.05 : ℝ) * max 0 ((aic : ℝ) - (eic : ℝ))) ≤ 1 :=
    penalty_factor_le_one _ _ (by norm_num) (le_max_left 0 _)
  refine ⟨?_, ?_, ?_, hae0⟩
  · unfold RewardCalculator.compute
    split
    · exact le_refl 0
    · exact mul_nonneg hb.1 (mul_nonneg hp1 hp2)
  · unfold RewardCalculator.compute
    split
    · exact zero_le_one
    · exact mul_le_one₀ hb.2 (mul_nonneg hp1 hp2) (mul_le_one₀ hp1' hp2 hp2')
  · intro h
    unfold RewardCalculator.compute
    simp [h]

/-- Closed witness for `reward_compute_in_unit_interval`. -/
theorem reward_compute_in_unit_interval_witness :
    0 ≤ RewardCalculator.compute {} false 5 5 2 2 ∧
    RewardCalculator.compute {} false 5 5 2 2 ≤ 1 ∧
    (false = false → RewardCalculator.compute {} false 5 5 2 2 = 0) ∧
    action_efficiency 2 0 = 0 :=
  reward_compute_in_unit_interval false 5 5 2 2

lemma action_efficiency_antitone (m a b : Nat) (ha : 1 ≤ a) (hab : a ≤ b) :
    action_efficiency m b ≤ action_efficiency m a := by
  unfold action_efficiency
  have ha' : 0 < a := ha
  have hb' : 0 < b := lt_of_lt_of_le ha' hab
  rw [if_pos ha', if_pos hb']
  refine min_le_min (le_refl 1) ?_
  exact div_le_div_of_nonneg_left (Nat.cast_nonneg m)
    (by exact_mod_cast ha') (by exact_mod_cast hab)

lemma action_penalty_antitone (k m : ℝ) (a b : Nat) (hk : 0 ≤ k) (hab : a ≤ b) :
    Real.exp (-k * max 0 ((b : ℝ) - m)) ≤ Real.exp (-k * max 0 ((a : ℝ) - m)) := by
  rw [Real.exp_le_exp]
  have h1 : max 0 ((a : ℝ) - m) ≤ max 0 ((b : ℝ) - m) := by
    refine max_le_max (le_refl 0) (sub_le_sub_right ?_ m)
    exact_mod_cast hab
  nlinarith

/-- C6 (amended): with the default configuration and a successful episode,
the reward is non-increasing in `actual_actions` over the *positive*
integers (for fixed inference counts and baselines).  At `actual_actions = 0`
the divide-by-zero guard forces the action efficiency to 0, so the reward
can increase from `actual_actions = 0` to `1`. -/
theorem reward_monotone_on_positive_actions (aa bb aic ma eic : Nat)
    (h1 : 1 ≤ aa) (h2 : aa ≤ bb) :
    RewardCalculator.compute {} true bb aic ma eic ≤
      RewardCalculator.compute {} true aa aic ma eic := by
  unfold RewardCalculator.compute
  simp only [Bool.true_eq_false, if_false]
  have hae_le := action_efficiency_antitone ma aa bb h1 h2
  have hae_b0 := action_efficiency_nonneg ma bb
  have hae_a1 := action_efficiency_le_one ma aa
  have hie0 := inference_efficiency_nonneg eic aic
  have hie1 := inference_efficiency_le_one eic aic
  have hpa_le := action_penalty_antitone (0.15 : ℝ) (ma : ℝ) aa bb (by norm_num) h2
  have hpa_b0 := (penalty_factor_pos (0.15 : ℝ) (max 0 ((bb : ℝ) - (ma : ℝ)))).le
  have hpa_a1 : Real.exp (-(0.15 : ℝ) * max 0 ((aa : ℝ) - (ma : ℝ))) ≤ 1 :=
    penalty_factor_le_one _ _ (by norm_num) (le_max_left 0 _)
  have hpi0 := (penalty_factor_pos (0.05 : ℝ) (max 0 ((aic : ℝ) - (eic : ℝ)))).le
  have hpi1 : Real.exp (-(0.05 : ℝ) * max 0 ((aic : ℝ) - (eic : ℝ))) ≤ 1 :=
    penalty_factor_le_one _ _ (by norm_num) (le_max_left 0 _)
  have hbase_le : (0.6 : ℝ) * action_efficiency ma bb + 0.4 * inference_efficiency eic aic ≤
      0.6 * action_efficiency ma aa + 0.4 * inference_efficiency eic aic := by
    nlinarith
  have hbase_b0 : (0 : ℝ) ≤ 0.6 * action_efficiency ma bb + 0.4 * inference_efficiency eic aic := by
    nlinarith
  have hbase_a0 : (0 : ℝ) ≤ 0.6 * action_efficiency ma aa + 0.4 * inference_efficiency eic aic := by
    nlinarith [action_efficiency_nonneg ma aa]
  have hpen_le : Real.exp (-(0.15 : ℝ) * max 0 ((bb : ℝ) - (ma : ℝ))) *
        Real.exp (-(0.05 : ℝ) * max 0 ((aic : ℝ) - (eic : ℝ))) ≤
      Real.exp (-(0.15 : ℝ) * max 0 ((aa : ℝ) - (ma : ℝ))) *
        Real.exp (-(0.05 : ℝ) * max 0 ((aic : ℝ) - (eic : ℝ))) :=
    mul_le_mul_of_nonneg_right hpa_le hpi0
  have hpen_b0 : (0 : ℝ) ≤ Real.exp (-(0.15 : ℝ) * max 0 ((bb : ℝ) - (ma : ℝ))) *
      Real.exp (-(0.05 : ℝ) * max 0 ((aic : ℝ) - (eic : ℝ))) :=
    mul_nonneg hpa_b0 hpi0
  exact mul_le_mul hbase_le hpen_le hpen_b0 hbase_a0

/-- Closed witness for `reward_monotone_on_positive_actions`. -/
theorem reward_monotone_on_positive_actions_witness :
    RewardCalculator.compute {} true 4 1 2 1 ≤ RewardCalculator.compute {} true 2 1 2 1 :=
  reward_monotone_on_positive_actions 2 4 1 2 1 (by norm_num) (by norm_num)

/-- C6 counterexample: the reward is *not* non-increasing over all
non-negative `actual_actions`.  With `min_actions = 1` and one inference
call, the reward at `actual_actions = 0` (namely 0.4, because the
divide-by-zero guard zeroes the action efficiency) is strictly below the
reward at `actual_actions = 1` (namely 1). -/
theorem reward_not_antitone_at_zero_actions :
    RewardCalculator.compute {} true 0 1 1 1 < RewardCalculator.compute {} true 1 1 1 1 := by
  unfold RewardCalculator.compute action_efficiency inference_efficiency
  norm_num

/-! ## Theorems: template catalog and chaining (C10, C1) -/

/-- C10: catalog invariant — for every site and every difficulty key `d`
of that site, every template stored under `d` has an action list of length
exactly `d`. -/
theorem catalog_template_lengths :
    ∀ p ∈ SITE_ACTION_TEMPLATES, ∀ b ∈ p.2, ∀ t ∈ b.2,
      t.actions.length = b.1 := by decide

/-- Closed witness for `catalog_template_lengths`: the difficulty-2 todo
template has exactly 2 actions. -/
theorem catalog_template_lengths_witness :
    ((((SITE_ACTION_TEMPLATES.getD 1 ("", [])).2.getD 1 (0, [])).2.getD 0
        ⟨[], "", []⟩).actions).length =
      ((SITE_ACTION_TEMPLATES.getD 1 ("", [])).2.getD 1 (0, [])).1 :=
  catalog_template_lengths (SITE_ACTION_TEMPLATES.getD 1 ("", [])) (by decide)
    ((SITE_ACTION_TEMPLATES.getD 1 ("", [])).2.getD 1 (0, [])) (by decide)
    (((SITE_ACTION_TEMPLATES.getD 1 ("", [])).2.getD 1 (0, [])).2.getD 0
      ⟨[], "", []⟩) (by decide)

/-- C1: for every site of the catalog (each has difficulty buckets
1,2,3,4 available), the chaining search at target difficulty 7 finds at
least one ordered combination of 2–3 templates whose difficulties sum to 7
and whose concatenated action list has length exactly 7; but the generator
then *raises `TypeError`* instead of returning the chained task, because
`_generate_by_chaining` calls `Task(..., is_chained=True,
chained_from=...)` with keywords the `Task` dataclass does not declare. -/
theorem chaining_difficulty7_finds_combos_but_raises :
    (SITE_ACTION_TEMPLATES.all (fun p =>
      let combos := find_template_combinations defaultChoose p.2 7 3
      (!combos.isEmpty) && combos.all (fun c =>
        decide (2 ≤ c.length) && decide (c.length ≤ 3) &&
        ((c.map (fun q => q.1)).sum == 7) &&
        (((c.map (fun q => q.2.actions)).flatten).length == 7)))) = true ∧
    generate_by_chaining defaultChoose (fun l => l) "c1" "signup" 7 [] =
      .error .typeError := by
  exact ⟨by decide, by decide⟩

/-! ## Theorems: oracle validation (C4, C9) -/

lemma validateLoop_ok_valid_steps_ge (run : OracleRun) (t : Task)
    (max_steps : Nat) (l : List Action)
    (hexp : t.expected_actions = some l) (hne : l.isEmpty = false) :
    ∀ fuel state callIdx taken tokens calls r,
      validateLoop run t max_steps fuel state callIdx taken tokens calls = .ok r →
      r.valid = true → l.length ≤ r.steps_taken := by
  intro fuel
  induction fuel with
  | zero =>
    intro state callIdx taken tokens calls r h hv
    simp only [validateLoop] at h
    cases h
    simp at hv
  | succ fuel ih =>
    intro state callIdx taken tokens calls r h hv
    simp only [validateLoop] at h
    split at h
    · cases h
      simp at hv
    · split at h
      · cases h
        simp at hv
      · cases h
        simp at hv
      · split at h
        · rw [hexp] at h
          simp only [hne, Bool.false_eq_true, if_false] at h
          split at h
          · exact ih _ _ _ _ _ _ h hv
          · cases h
            rename_i hcond
            have hlen : 0 < l.length := by
              cases l with
              | nil => simp at hne
              | cons a as => simp
            simp only [OracleResult.steps_taken]
            omega
        · exact ih _ _ _ _ _ _ h hv

lemma validate_ok_valid_steps_ge (run : OracleRun) (t : Task) (max_steps : Nat)
    (l : List Action) (r : OracleResult)
    (hexp : t.expected_actions = some l) (hne : l.isEmpty = false)
    (h : validate run t max_steps = .ok r) (hv : r.valid = true) :
    l.length ≤ r.steps_taken := by
  unfold validate at h
  split at h
  · cases h
    simp at hv
  · exact validateLoop_ok_valid_steps_ge run t max_steps l hexp hne _ _ _ _ _ _ r h hv

/-- C4: for a task carrying a known expected action count (a non-empty
`expected_actions` attribute), the oracle never returns a successful result
with fewer steps than that count — early hint matches are suppressed.  But
for a task with *no* known expected count (the attribute absent, as for
every LLM-fallback task), the success check does not return early success:
it raises `AttributeError` when `validate` reads `task.expected_actions`. -/
theorem oracle_suppresses_early_success_or_raises :
    (∀ (run : OracleRun) (t : Task) (max_steps : Nat) (l : List Action)
       (r : OracleResult),
        t.expected_actions = some l → l.isEmpty = false →
        validate run t max_steps = .ok r → r.valid = true →
        l.length ≤ r.steps_taken) ∧
    validate c4Run c4Task 2 = .error .attributeError := by
  refine ⟨?_, by decide⟩
  intro run t max_steps l r hexp hne h hv
  exact validate_ok_valid_steps_ge run t max_steps l r hexp hne h hv

/-- Closed witness for `oracle_suppresses_early_success_or_raises`: on a
clean two-step run of the difficulty-2 todo template task, the successful
result took at least the 2 expected steps. -/
theorem oracle_suppresses_early_success_witness :
    ([(⟨"type", "New Todo", "Buy groceries"⟩ : Action),
      ⟨"click", "Add Todo", ""⟩] : List Action).length ≤ c4wResult.steps_taken :=
  oracle_suppresses_early_success_or_raises.1 c4wRun c3Task 4
    [⟨"type", "New Todo", "Buy groceries"⟩, ⟨"click", "Add Todo", ""⟩]
    c4wResult (by decide) (by decide) (by decide) (by decide)

/-- C9: `Oracle.validate` is *not* total on tasks reconstructed by
`Task.from_dict` (which never reattaches the dynamic `expected_actions`
attribute): as soon as a hint matches after an executed action, reading
`task.expected_actions` raises `AttributeError` instead of returning an
`OracleResult`. -/
theorem validate_raises_on_reloaded_task :
    Task.from_dict c9Record = .ok c9Task ∧
    c9Task.success_criteria.hints.isEmpty = false ∧
    validate c9Run c9Task 4 = .error .attributeError := by
  refine ⟨by decide, by decide, by decide⟩

/-! ## Theorems: curriculum admission (C2, C3) -/

lemma poolStep_admits (d : Nat) (v : Task → OracleResult)
    (bucket : List Task) (seen : List NormKey) (t : Task)
    (hfresh : seen.contains (normalize_task t) = false)
    (hv : (v t).valid = true) (hle : d ≤ (v t).steps_taken)
    (hge : (v t).steps_taken ≤ d + 1) :
    poolStep d v (bucket, seen) (some t) =
      (bucket ++ [admitTask t (v t)], seen ++ [normalize_task t]) := by
  unfold poolStep
  simp only [hfresh, Bool.false_eq_true, if_false, hv, if_true]
  rw [if_pos ⟨hle, hge⟩]

lemma poolStep_rejects (d : Nat) (v : Task → OracleResult)
    (bucket : List Task) (seen : List NormKey) (t : Task)
    (hfresh : seen.contains (normalize_task t) = false)
    (hnot : ¬((v t).valid = true ∧ d ≤ (v t).steps_taken ∧
              (v t).steps_taken ≤ d + 1)) :
    poolStep d v (bucket, seen) (some t) = (bucket, seen) := by
  unfold poolStep
  simp only [hfresh, Bool.false_eq_true, if_false]
  by_cases hv : (v t).valid = true
  · simp only [hv, if_true]
    rw [if_neg (fun hb => hnot ⟨hv, hb⟩)]
  · simp only [hv]
    rfl

lemma poolStep_extends (d : Nat) (v : Task → OracleResult)
    (acc : List Task × List NormKey) (cand : Option Task) :
    ∃ rest, (poolStep d v acc cand).1 = acc.1 ++ rest := by
  unfold poolStep
  split
  · exact ⟨[], by simp⟩
  · dsimp only
    split
    · exact ⟨[], by simp⟩
    · split
      · split
        · exact ⟨[admitTask _ _], rfl⟩
        · exact ⟨[], by simp⟩
      · exact ⟨[], by simp⟩

lemma buildLoop_extends (d tp : Nat) (v : Task → OracleResult) :
    ∀ cands acc, ∃ rest, (buildLoop d tp v cands acc).1 = acc.1 ++ rest := by
  intro cands
  induction cands with
  | nil =>
    intro acc
    exact ⟨[], by simp [buildLoop]⟩
  | cons c cs ih =>
    intro acc
    have hstep : buildLoop d tp v (c :: cs) acc =
        buildLoop d tp v cs (if acc.1.length < tp then poolStep d v acc c else acc) := rfl
    rw [hstep]
    by_cases hg : acc.1.length < tp
    · rw [if_pos hg]
      obtain ⟨r1, hr1⟩ := poolStep_extends d v acc c
      obtain ⟨r2, hr2⟩ := ih (poolStep d v acc c)
      exact ⟨r1 ++ r2, by rw [hr2, hr1, List.append_assoc]⟩
    · rw [if_neg hg]
      exact ih acc

/-- C2: a validated, non-duplicate candidate is appended to bucket `d` if
and only if the oracle result is valid and `d ≤ steps_taken ≤ d + 1`; on
acceptance its `min_actions` is set to the oracle's `steps_taken`, and
tasks already in the bucket are never modified by later attempts (the loop
only ever appends). -/
theorem build_pool_admission_iff (d : Nat) (v : Task → OracleResult)
    (bucket : List Task) (seen : List NormKey) (t : Task)
    (hfresh : seen.contains (normalize_task t) = false) :
    (((v t).valid = true ∧ d ≤ (v t).steps_taken ∧ (v t).steps_taken ≤ d + 1) →
        poolStep d v (bucket, seen) (some t) =
          (bucket ++ [admitTask t (v t)], seen ++ [normalize_task t]) ∧
        (admitTask t (v t)).min_actions = some (v t).steps_taken) ∧
    (¬((v t).valid = true ∧ d ≤ (v t).steps_taken ∧ (v t).steps_taken ≤ d + 1) →
        poolStep d v (bucket, seen) (some t) = (bucket, seen)) ∧
    (∀ tasks_per cands acc, ∃ rest,
        (buildLoop d tasks_per v cands acc).1 = acc.1 ++ rest) := by
  refine ⟨?_, ?_, fun tp cands acc => buildLoop_extends d tp v cands acc⟩
  · rintro ⟨hv, hle, hge⟩
    exact ⟨poolStep_admits d v bucket seen t hfresh hv hle hge, rfl⟩
  · intro hnot
    exact poolStep_rejects d v bucket seen t hfresh hnot

/-- Closed witness for `build_pool_admission_iff`: a fresh candidate with
a valid 3-step result is appended to bucket 2 with `min_actions = 3`. -/
theorem build_pool_admission_iff_witness :
    poolStep 2 (fun _ => c3Result) ([], []) (some c3Task) =
      ([] ++ [admitTask c3Task ((fun _ => c3Result) c3Task)],
       [] ++ [normalize_task c3Task]) ∧
    (admitTask c3Task ((fun _ => c3Result) c3Task)).min_actions =
      some ((fun _ => c3Result) c3Task).steps_taken :=
  (build_pool_admission_iff 2 (fun _ => c3Result) [] [] c3Task (by decide)).1
    ⟨by decide, by decide, by decide⟩

/-- C3 counterexample: a template task whose pre-known expected action
count is 2 (produced by the real template generator), driven by an oracle
run that wastes one action, yields a *valid* result with `steps_taken = 3`;
`build_pool` admits it to bucket 2 and stores `min_actions = 3 ≠ 2` — the
expected-count equality is not enforced. -/
theorem curriculum_admits_overshoot_counterexample :
    generate_from_template defaultChoose "c3" "todo" 2 [] = some c3Task ∧
    c3Task.expected_actions =
      some [⟨"type", "New Todo", "Buy groceries"⟩, ⟨"click", "Add Todo", ""⟩] ∧
    validate c3Run c3Task 4 = .ok c3Result ∧
    c3Result.valid = true ∧
    c3Result.steps_taken = 3 ∧
    (poolStep 2 (fun _ => c3Result) ([], []) (some c3Task)).1 =
      [admitTask c3Task c3Result] ∧
    (admitTask c3Task c3Result).min_actions = some 3 ∧
    (c3Result.steps_taken == c3Result.expected_steps) = false := by
  refine ⟨by decide, by decide, by decide, by decide, by decide, by decide,
    by decide, by decide⟩

/-- C3 (amended): curriculum admission checks only oracle validity and the
range `d ≤ steps_taken ≤ d + 1`; the expected-count *equality* check
(`is_valid_for_curriculum`) is never applied by `build_pool`.  The oracle's
suppression does guarantee `steps_taken` is at least the expected count,
but an admitted task may store `min_actions` strictly above it. -/
theorem curriculum_admission_checks_range_not_expected
    (d max_steps : Nat) (run : OracleRun) (t : Task) (l : List Action)
    (r : OracleResult) (bucket : List Task) (seen : List NormKey)
    (hexp : t.expected_actions = some l) (hne : l.isEmpty = false)
    (hval : validate run t max_steps = .ok r) (hv : r.valid = true)
    (hfresh : seen.contains (normalize_task t) = false)
    (hle : d ≤ r.steps_taken) (hge : r.steps_taken ≤ d + 1) :
    poolStep d (fun _ => r) (bucket, seen) (some t) =
      (bucket ++ [admitTask t r], seen ++ [normalize_task t]) ∧
    (admitTask t r).min_actions = some r.steps_taken ∧
    l.length ≤ r.steps_taken := by
  refine ⟨poolStep_admits d (fun _ => r) bucket seen t hfresh hv hle hge, rfl, ?_⟩
  exact validate_ok_valid_steps_ge run t max_steps l r hexp hne hval hv

/-- Closed witness for `curriculum_admission_checks_range_not_expected`. -/
theorem curriculum_admission_checks_range_witness :
    poolStep 2 (fun _ => c3Result) ([], []) (some c3Task) =
      ([] ++ [admitTask c3Task c3Result], [] ++ [normalize_task c3Task]) ∧
    (admitTask c3Task c3Result).min_actions = some c3Result.steps_taken ∧
    ([(⟨"type", "New Todo", "Buy groceries"⟩ : Action),
      ⟨"click", "Add Todo", ""⟩] : List Action).length ≤ c3Result.steps_taken :=
  curriculum_admission_checks_range_not_expected 2 4 c3Run c3Task
    [⟨"type", "New Todo", "Buy groceries"⟩, ⟨"click", "Add Todo", ""⟩]
    c3Result [] [] (by decide) (by decide) (by decide) (by decide)
    (by decide) (by decide) (by decide)

/-! ## Theorems: pool persistence round trip (C7) -/

lemma from_dict_to_dict (t : Task) :
    Task.from_dict (Task.to_dict t) = .ok (Task.stripDynamic t) := rfl

lemma dedupBucket_seen_eq : ∀ (ts : List Task) (seen : List NormKey),
    (dedupBucket seen ts).2 = (dedupBucketTasks seen ts).2 := by
  intro ts
  induction ts with
  | nil => intro seen; rfl
  | cons t ts ih =>
    intro seen
    unfold dedupBucket dedupBucketTasks
    dsimp only
    simp only [normalize_task]
    split
    · exact ih seen
    · exact ih _

lemma loadTasks_dedupBucket : ∀ (ts : List Task) (seen : List NormKey),
    loadTasks (dedupBucket seen ts).1 =
      .ok ((dedupBucketTasks seen ts).1.map Task.stripDynamic) := by
  intro ts
  induction ts with
  | nil => intro seen; rfl
  | cons t ts ih =>
    intro seen
    unfold dedupBucket dedupBucketTasks
    dsimp only
    simp only [normalize_task]
    split
    · exact ih seen
    · simp only [loadTasks, from_dict_to_dict, ih, List.map_cons]

lemma loadBuckets_savePool : ∀ (pool : List (Nat × List Task))
    (seen : List NormKey) (acc : List (Nat × List Task)),
    loadBuckets acc (savePool seen pool) =
      (true, acc ++ (dedupPool seen pool).map
        (fun p => (p.1, p.2.map Task.stripDynamic))) := by
  intro pool
  induction pool with
  | nil =>
    intro seen acc
    simp [savePool, loadBuckets, dedupPool]
  | cons b rest ih =>
    intro seen acc
    obtain ⟨d, ts⟩ := b
    unfold savePool dedupPool
    dsimp only
    simp only [loadBuckets, loadTasks_dedupBucket, dedupBucket_seen_eq, ih,
      List.map_cons]
    simp

/-- C7: saving a pool and loading the saved document reports success and
reproduces, keyed by the same integer difficulties, the save-time
deduplicated tasks field-for-field (only the non-persisted dynamic
`expected_actions` attribute is dropped); loading an absent or non-JSON
file, or a document with a record missing a required key, returns `false`
without raising. -/
theorem save_load_round_trip :
    (∀ t : Task, Task.from_dict (Task.to_dict t) = .ok (Task.stripDynamic t)) ∧
    (∀ t : Task,
      (Task.stripDynamic t).id = t.id ∧
      (Task.stripDynamic t).site = t.site ∧
      (Task.stripDynamic t).description = t.description ∧
      (Task.stripDynamic t).success_criteria = t.success_criteria ∧
      (Task.stripDynamic t).estimated_replans = t.estimated_replans ∧
      (Task.stripDynamic t).replan_reasoning = t.replan_reasoning ∧
      (Task.stripDynamic t).min_actions = t.min_actions ∧
      (Task.stripDynamic t).oracle_tokens = t.oracle_tokens ∧
      (Task.stripDynamic t).validated = t.validated) ∧
    (∀ (pool old_pool : List (Nat × List Task)),
      loadPool (.doc (savePool [] pool)) old_pool =
        (true, (dedupPool [] pool).map
          (fun p => (p.1, p.2.map Task.stripDynamic)))) ∧
    (∀ old_pool, loadPool .absent old_pool = (false, old_pool)) ∧
    (∀ old_pool, loadPool .notJson old_pool = (false, old_pool)) ∧
    loadPool (.doc [(2, [badRecord])]) [] = (false, []) := by
  refine ⟨fun t => from_dict_to_dict t,
    fun t => ⟨rfl, rfl, rfl, rfl, rfl, rfl, rfl, rfl, rfl⟩,
    fun pool old_pool => ?_, fun old_pool => rfl, fun old_pool => rfl, by decide⟩
  show loadBuckets [] (savePool [] pool) = _
  simpa using loadBuckets_savePool pool [] []

/-! ## Theorems: evaluation episodes (C8) -/

/-- C8 counterexample: a concrete episode that exhausts its call budget
fails with reward 0, but the reason string recorded by the code is
"Max iterations exceeded" (capital M), not "max iterations exceeded" as
the specification spells it. -/
theorem episode_budget_reason_capitalization :
    (run_episode {} c8Run c8Task 2).status = .failure ∧
    (run_episode {} c8Run c8Task 2).reward = 0 ∧
    (run_episode {} c8Run c8Task 2).failure_reason = some "Max iterations exceeded" ∧
    ((run_episode {} c8Run c8Task 2).failure_reason ==
      some "max iterations exceeded") = false := by
  have h : (run_episode {} c8Run c8Task 2).failure_reason =
      some "Max iterations exceeded" := by
    simp [run_episode, episodeLoop, c8Run, c8Task, execBatch, mkPage,
      Task.expected_inference_calls]
  refine ⟨?_, ?_, h, ?_⟩
  · simp [run_episode, episodeLoop, c8Run, c8Task, execBatch, mkPage,
      Task.expected_inference_calls]
  · simp [run_episode, episodeLoop, c8Run, c8Task, execBatch, mkPage,
      Task.expected_inference_calls]
  · rw [h]
    decide

/-- C8 (amended): a reset timeout yields a skipped episode with reward 0
and zero action/inference counters, and exhausting the inference-call
budget without the verifier reporting success yields a failed episode with
reward 0 and failure reason "Max iterations exceeded" (capital M). -/
theorem episode_skip_and_budget_exhaustion :
    (∀ (cfg : RewardConfig) (run : EpisodeRun) (t : Task) (buffer : Nat)
       (e : String), run.reset = .error e →
       (run_episode cfg run t buffer).status = .skipped ∧
       (run_episode cfg run t buffer).reward = 0 ∧
       (run_episode cfg run t buffer).actual_actions = 0 ∧
       (run_episode cfg run t buffer).actual_inference_calls = 0 ∧
       (run_episode cfg run t buffer).failure_reason = some e) ∧
    (∀ (cfg : RewardConfig) (run : EpisodeRun) (t : Task) (max_calls : Nat)
       (st : PageState) (calls tokens acts : Nat) (hist : List Action),
       max_calls ≤ calls →
       episodeLoop cfg run t max_calls st calls tokens acts hist =
         { task_id := t.id, difficulty := t.min_actions, status := .failure,
           actual_actions := acts, actual_inference_calls := calls,
           min_actions := t.min_actions,
           expected_inference_calls := t.expected_inference_calls,
           multi_step_tokens := tokens, single_step_tokens := t.oracle_tokens,
           reward := 0, failure_reason := some "Max iterations exceeded",
           action_history := hist }) := by
  constructor
  · intro cfg run t buffer e hre
    unfold run_episode
    rw [hre]
    exact ⟨rfl, rfl, rfl, rfl, rfl⟩
  · intro cfg run t max_calls st calls tokens acts hist hge
    unfold episodeLoop
    rw [dif_neg (by omega)]

/-- Closed witness for `episode_skip_and_budget_exhaustion`. -/
theorem episode_skip_and_budget_exhaustion_witness :
    (run_episode {} c8SkipRun c8Task 2).status = .skipped ∧
    episodeLoop {} c8Run c8Task 3 (mkPage "e0" "") 3 15 3 [] =
      { task_id := c8Task.id, difficulty := c8Task.min_actions,
        status := .failure, actual_actions := 3, actual_inference_calls := 3,
        min_actions := c8Task.min_actions,
        expected_inference_calls := c8Task.expected_inference_calls,
        multi_step_tokens := 15, single_step_tokens := c8Task.oracle_tokens,
        reward := 0, failure_reason := some "Max iterations exceeded",
        action_history := [] } :=
  ⟨(episode_skip_and_budget_exhaustion.1 {} c8SkipRun c8Task 2
      "Page load timed out" rfl).1,
   episode_skip_and_budget_exhaustion.2 {} c8Run c8Task 3 (mkPage "e0" "")
     3 15 3 [] (by omega)⟩

end Curric
